import Mathlib

/-!
Shallow embedding of the extract serialization engine of
`pyramid_oereb/lib/renderer/extract/json_.py` (class `Renderer`), together
with the record classes it consumes (`lib/records/office.py`,
`lib/records/theme.py`, and the record shapes used by the renderer).

Python dictionaries built by the renderer are modelled as association lists
of `String × Val` in insertion order; key presence in the rendered output is
the observable the theorems speak about.  Fallible formatters (the renderer
raises `ValueError` for a restriction without legal provision and
`TypeError` for an unclassifiable geometry type) are modelled with
`Except RenderError`.  `route_url` results are modelled as opaque reference
descriptors (`Val.ref`) carrying the route path and its arguments.
-/

namespace PyramidOereb

/-- Output values produced by the renderer: the JSON-serializable Python
values the formatters place into their dicts.  `bin` models the result of
`payload.encode()` on a binary payload, `ref` models the URL string built by
`request.route_url(path, **args)`. -/
inductive Val where
  | null : Val
  | str : String → Val
  | int : Int → Val
  | bool : Bool → Val
  | bin : String → Val
  | ref : String → List (String × String) → Val
  | arr : List Val → Val
  | obj : List (String × Val) → Val
deriving Repr

/-- A rendered Python dict: keys with values, in insertion order. -/
abbrev Node := List (String × Val)

/-- Key membership in a rendered dict. -/
def hasKey (n : Node) (k : String) : Bool := n.any (fun p => p.1 == k)

/-- Value stored under a key of a rendered dict (first occurrence). -/
def getKey (n : Node) (k : String) : Option Val :=
  (n.find? (fun p => p.1 == k)).map Prod.snd

/-- A multilingual input value: the renderer's `values` parameter of
`get_localized_text` is "str or dict" (a plain string, or a mapping from
language code to text).  Python dicts from the data layer are modelled as
association lists with distinct keys not being required for the theorems. -/
inductive MultiVal where
  | plain : String → MultiVal
  | dict : List (String × String) → MultiVal
deriving Repr, DecidableEq

/-- `d.get(k)` on a Python dict: `none` when the key is absent. -/
def dictGet (values : List (String × String)) (k : String) : Option String :=
  (values.find? (fun p => p.1 == k)).map Prod.snd

/-- `k in d` on a Python dict. -/
def dictHas (values : List (String × String)) (k : String) : Bool :=
  values.any (fun p => p.1 == k)

/-- Lift an optional string to a value; Python `None` serializes as null. -/
def optStrVal : Option String → Val
  | none => Val.null
  | some s => Val.str s

/-- ASCII uppercase letter test (`A`-`Z`), the range Python's `str.lower`
maps for the language codes at issue. -/
def isUpperA (c : Char) : Bool := decide (65 ≤ c.toNat ∧ c.toNat ≤ 90)

/-- ASCII lowering of one character, modelling `str.lower()` per character
for the ASCII language codes the renderer handles. -/
def lowerChar (c : Char) : Char :=
  if isUpperA c then Char.ofNat (c.toNat + 32) else c

/-- `s.lower()` on a Python string (ASCII range). -/
def lowerStr (s : String) : String := ⟨s.data.map lowerChar⟩

/-- Process-wide configuration, read by the renderer through `Config.get`:
default language, geometry type table, srid, and the route prefix used for
reference URLs. -/
structure GeometryTypes where
  point : List String
  line : List String
  polygon : List String
deriving Repr, DecidableEq

structure Config where
  default_language : String
  geometry_types : GeometryTypes
  srid : Int
  routeRoot : String
deriving Repr, DecidableEq

/-- The webservice `Parameter` object as read by the renderer: `flavour`,
optional requested `language`, and the `images` / `geometry` switches. -/
structure Parameter where
  flavour : String
  language : Option String
  images : Bool
  geometry : Bool
deriving Repr, DecidableEq

/-- The renderer's `self._language`: set at construction to the lowercased
configured default language, overwritten in `_render` by the lowercased
request language when the parameter carries a truthy (non-empty) one. -/
def renderer_language (default_language : String) (param_language : Option String) : String :=
  match param_language with
  | some l => if l ≠ "" then lowerStr l else lowerStr default_language
  | none => lowerStr default_language

/-- `Renderer.get_localized_text`: for a dict value, the entry for
`self._language` when that key is present, else the entry for the (raw,
not lowercased) configured default language, with `dict.get` returning
null for an absent key; for a plain value, the default language paired
with the value itself.  Always a one-element list. -/
def get_localized_text (language default_language : String) (values : MultiVal) : List Val :=
  match values with
  | .dict vs =>
    if dictHas vs language then
      [Val.obj [("Language", Val.str language), ("Text", optStrVal (dictGet vs language))]]
    else
      [Val.obj [("Language", Val.str default_language),
                ("Text", optStrVal (dictGet vs default_language))]]
  | .plain v =>
    [Val.obj [("Language", Val.str default_language), ("Text", Val.str v)]]

/-- `OfficeRecord` (`lib/records/office.py`): `name` mandatory, the other
fields optional.  `postal_code` is an integer (see `test_office_record.py`). -/
structure OfficeRecord where
  name : MultiVal
  uid : Option String
  office_at_web : Option String
  line1 : Option String
  line2 : Option String
  street : Option String
  number : Option String
  postal_code : Option Int
  city : Option String
deriving Repr, DecidableEq

/-- Python truthiness of an optional string: `None` and `''` are falsy. -/
def truthyStr : Option String → Bool
  | none => false
  | some s => s ≠ ""

/-- Python truthiness of an optional integer: `None` and `0` are falsy. -/
def truthyInt : Option Int → Bool
  | none => false
  | some n => n ≠ 0

/-- Python truthiness of an optional str-or-dict value: `None`, `''` and
`{}` are falsy. -/
def truthyMulti : Option MultiVal → Bool
  | none => false
  | some (.plain s) => s ≠ ""
  | some (.dict l) => l ≠ []

/-- `Renderer.format_office`: mandatory `Name`, then each optional field's
key added under a truthiness check, in source order. -/
def format_office (language default_language : String) (o : OfficeRecord) : Node :=
  [("Name", Val.arr (get_localized_text language default_language o.name))]
  ++ (if truthyStr o.office_at_web then [("OfficeAtWeb", optStrVal o.office_at_web)] else [])
  ++ (if truthyStr o.uid then [("UID", optStrVal o.uid)] else [])
  ++ (if truthyStr o.line1 then [("Line1", optStrVal o.line1)] else [])
  ++ (if truthyStr o.line2 then [("Line2", optStrVal o.line2)] else [])
  ++ (if truthyStr o.street then [("Street", optStrVal o.street)] else [])
  ++ (if truthyStr o.number then [("Number", optStrVal o.number)] else [])
  ++ (if truthyInt o.postal_code then
        [("PostalCode", Val.int (o.postal_code.getD 0))] else [])
  ++ (if truthyStr o.city then [("City", optStrVal o.city)] else [])

/-- `ThemeRecord` (`lib/records/theme.py`). -/
structure ThemeRecord where
  code : String
  text : MultiVal
deriving Repr, DecidableEq

/-- `Renderer.format_theme`. -/
def format_theme (language default_language : String) (theme : ThemeRecord) : Node :=
  [("Code", Val.str theme.code),
   ("Text", Val.arr (get_localized_text language default_language theme.text))]

/-- `DocumentRecord`/`LegalProvisionRecord` vs `ArticleRecord`: the two
record shapes `format_document` dispatches on (`LegalProvisionRecord` is a
`DocumentRecord` subclass formatted identically, so one constructor covers
both).  List-valued fields sit behind an `isinstance(..., list)` guard in
the renderer, hence `Option (List _)`. -/
inductive DocumentRecord where
  | doc
      (legal_state : String)
      (text_at_web : MultiVal)
      (title : MultiVal)
      (responsible_office : OfficeRecord)
      (official_title : Option MultiVal)
      (abbreviation : Option MultiVal)
      (official_number : Option String)
      (canton : Option String)
      (municipality : Option String)
      (article_numbers : Option (List String))
      (articles : Option (List DocumentRecord))
      (references : Option (List DocumentRecord))
  | article
      (legal_state : String)
      (number : String)
      (text_at_web : Option MultiVal)
      (text : Option MultiVal)

/-- Python truthiness of a str-or-dict value: `''` and `{}` are falsy. -/
def truthyMultiVal : MultiVal → Bool
  | .plain s => s ≠ ""
  | .dict l => l ≠ []

mutual

/-- `Renderer.format_document`: the document/legal-provision branch emits
`Lawstatus`, `TextAtWeb`, `Title`, `ResponsibleOffice` always and the
optional keys under truthiness / non-empty-list checks, recursing into
nested articles (`Article`) and referenced documents (`Reference`); the
article branch emits `Lawstatus` and `Number` always, `TextAtWeb` and
`Text` under truthiness checks. -/
def format_document (language default_language : String) : DocumentRecord → Node
  | .doc legal_state text_at_web title responsible_office official_title abbreviation
      official_number canton municipality article_numbers articles references =>
    [("Lawstatus", Val.str legal_state),
     ("TextAtWeb", Val.arr (get_localized_text language default_language text_at_web)),
     ("Title", Val.arr (get_localized_text language default_language title)),
     ("ResponsibleOffice", Val.obj (format_office language default_language responsible_office))]
    ++ (match official_title with
        | some ot => if truthyMultiVal ot then
            [("OfficialTitle", Val.arr (get_localized_text language default_language ot))] else []
        | none => [])
    ++ (match abbreviation with
        | some ab => if truthyMultiVal ab then
            [("Abbrevation", Val.arr (get_localized_text language default_language ab))] else []
        | none => [])
    ++ (if truthyStr official_number then [("OfficialNumber", optStrVal official_number)] else [])
    ++ (if truthyStr canton then [("Canton", optStrVal canton)] else [])
    ++ (if truthyStr municipality then [("Municipality", optStrVal municipality)] else [])
    ++ (match article_numbers with
        | some l => if l.length > 0 then [("ArticleNumber", Val.arr (l.map Val.str))] else []
        | none => [])
    ++ (match articles with
        | some l => if l.length > 0 then
            [("Article", Val.arr (format_document_list language default_language l))] else []
        | none => [])
    ++ (match references with
        | some l => if l.length > 0 then
            [("Reference", Val.arr (format_document_list language default_language l))] else []
        | none => [])
  | .article legal_state number text_at_web text =>
    [("Lawstatus", Val.str legal_state),
     ("Number", Val.str number)]
    ++ (match text_at_web with
        | some t => if truthyMultiVal t then
            [("TextAtWeb", Val.arr (get_localized_text language default_language t))] else []
        | none => [])
    ++ (match text with
        | some t => if truthyMultiVal t then
            [("Text", Val.arr (get_localized_text language default_language t))] else []
        | none => [])

/-- The renderer's per-element loops over article / reference lists. -/
def format_document_list (language default_language : String) : List DocumentRecord → List Val
  | [] => []
  | d :: ds =>
    Val.obj (format_document language default_language d)
      :: format_document_list language default_language ds

end

/-- The two exceptions the renderer raises while serializing restrictions:
the `ValueError` for a non-reduced restriction without legal provision and
the `TypeError` for a geometry type not configured in `geometry_types`. -/
inductive RenderError where
  | missingLegalBasis
  | unknownGeometryType (gtype : String)
deriving Repr, DecidableEq

/-- The `if/elif/elif/else` chain of `format_geometry` over the configured
`geometry_types` table: first matching category wins. -/
def classify (gt : GeometryTypes) (tag : String) : Option String :=
  if tag ∈ gt.point then some "Point"
  else if tag ∈ gt.line then some "Line"
  else if tag ∈ gt.polygon then some "Surface"
  else none

/-- A shapely geometry as the renderer sees it: its `type` tag and its
coordinate structure (`mapping(geom)['coordinates']`, passed through). -/
structure Geom where
  gtype : String
  coords : Val

/-- `GeometryRecord` as consumed by `format_geometry`. -/
structure GeometryRecord where
  geom : Geom
  legal_state : String
  office : OfficeRecord
  geo_metadata : Option String

/-- `Renderer.from_shapely`: coordinates plus a CRS descriptor from the
configured srid. -/
def from_shapely (cfg : Config) (g : Geom) : Val :=
  Val.obj [("coordinates", g.coords),
           ("crs", Val.str ("EPSG:" ++ toString cfg.srid))]

/-- `Renderer.format_geometry`: classify the native type tag (raising for
an unconfigured tag), store the coordinate payload under the category key,
then `Lawstatus`, `ResponsibleOffice` and the optional metadata key. -/
def format_geometry (cfg : Config) (language : String) (g : GeometryRecord) :
    Except RenderError Node :=
  match classify cfg.geometry_types g.geom.gtype with
  | none => .error (.unknownGeometryType g.geom.gtype)
  | some k =>
    .ok ([(k, from_shapely cfg g.geom),
          ("Lawstatus", Val.str g.legal_state),
          ("ResponsibleOffice", Val.obj (format_office language cfg.default_language g.office))]
         ++ (if truthyStr g.geo_metadata then
               [("MetadataOfGeographicalBaseData", optStrVal g.geo_metadata)] else []))

/-- `LegendEntryRecord` as consumed by `format_legend_entry`. -/
structure LegendEntryRecord where
  legend_text : MultiVal
  type_code : String
  type_code_list : String
  theme : ThemeRecord
  symbol : String
  sub_theme : Option String
  additional_theme : Option String

/-- `ViewServiceRecord` as consumed by `format_map`. -/
structure MapRecord where
  image : Option String
  link_wms : Option String
  legend_web : Option String
  legends : Option (List LegendEntryRecord)

/-- `Renderer.format_legend_entry`: fixed keys, then inline `Symbol` in
image mode or a `SymbolRef` reference URL otherwise, then the optional
sub/other theme keys. -/
def format_legend_entry (cfg : Config) (params : Parameter) (language : String)
    (le : LegendEntryRecord) : Node :=
  [("LegendText", Val.arr (get_localized_text language cfg.default_language le.legend_text)),
   ("TypeCode", Val.str le.type_code),
   ("TypeCodelist", Val.str le.type_code_list),
   ("Theme", Val.obj (format_theme language cfg.default_language le.theme))]
  ++ (if params.images then [("Symbol", Val.bin le.symbol)]
      else [("SymbolRef", Val.ref (cfg.routeRoot ++ "/image/symbol")
              [("theme_code", le.theme.code), ("type_code", le.type_code)])])
  ++ (if truthyStr le.sub_theme then [("SubTheme", optStrVal le.sub_theme)] else [])
  ++ (if truthyStr le.additional_theme then [("OtherTheme", optStrVal le.additional_theme)] else [])

/-- `Renderer.format_map`: every key conditional. -/
def format_map (cfg : Config) (params : Parameter) (language : String) (m : MapRecord) : Node :=
  (if truthyStr m.image then [("Image", Val.bin (m.image.getD ""))] else [])
  ++ (if truthyStr m.link_wms then [("ReferenceWMS", optStrVal m.link_wms)] else [])
  ++ (if truthyStr m.legend_web then [("LegendAtWeb", optStrVal m.legend_web)] else [])
  ++ (match m.legends with
      | some l => if l.length > 0 then
          [("OtherLegend",
            Val.arr (l.map (fun le => Val.obj (format_legend_entry cfg params language le))))]
        else []
      | none => [])

/-- `PlrRecord` as consumed by `format_plr`. -/
structure PlrRecord where
  content : MultiVal
  theme : ThemeRecord
  legal_state : String
  area : Option Int
  responsible_office : OfficeRecord
  view_service : MapRecord
  symbol : String
  subtopic : Option String
  additional_topic : Option String
  type_code : Option String
  type_code_list : Option String
  part_in_percent : Option Int
  geometries : Option (List GeometryRecord)
  documents : Option (List DocumentRecord)

/-- `isinstance(x, list) and len(x) == 0` on an optional list field. -/
def isEmptyListOpt {α : Type} : Option (List α) → Bool
  | some [] => true
  | _ => false

/-- `isinstance(x, list) and len(x) > 0` on an optional list field. -/
def nonEmptyListOpt {α : Type} : Option (List α) → Bool
  | some (_ :: _) => true
  | _ => false

/-- The renderer's loop over `plr.geometries`. -/
def format_geometry_list (cfg : Config) (language : String) :
    List GeometryRecord → Except RenderError (List Val)
  | [] => .ok []
  | g :: gs =>
    match format_geometry cfg language g with
    | .error e => .error e
    | .ok n =>
      match format_geometry_list cfg language gs with
      | .error e => .error e
      | .ok ns => .ok (Val.obj n :: ns)

/-- The `Geometry` portion of a restriction node: present when geometry
inclusion is on and the geometry list is present and non-empty, raising
through `format_geometry` for an unconfigured geometry type. -/
def format_plr_geom_part (cfg : Config) (params : Parameter) (language : String)
    (plr : PlrRecord) : Except RenderError Node :=
  if params.geometry && nonEmptyListOpt plr.geometries then
    match format_geometry_list cfg language (plr.geometries.getD []) with
    | .error e => .error e
    | .ok ns => .ok [("Geometry", Val.arr ns)]
  else .ok []

/-- One iteration of the `format_plr` loop: the legal-provision validation
(`flavour != 'reduced'` with a present-and-empty document list raises
`ValueError`), then the node, with the `Symbol`/`SymbolRef` choice, the
truthiness-guarded optional keys, the geometry list (which can raise for
an unconfigured geometry type) and the `LegalProvisions` list. -/
def format_plr_single (cfg : Config) (params : Parameter) (language : String)
    (plr : PlrRecord) : Except RenderError Node :=
  if (params.flavour != "reduced") && isEmptyListOpt plr.documents then
    .error .missingLegalBasis
  else
    match format_plr_geom_part cfg params language plr with
    | .error e => .error e
    | .ok geomKeys =>
      .ok ([("Information", Val.arr (get_localized_text language cfg.default_language plr.content)),
            ("Theme", Val.obj (format_theme language cfg.default_language plr.theme)),
            ("Lawstatus", Val.str plr.legal_state),
            ("Area", match plr.area with | none => Val.null | some a => Val.int a),
            ("ResponsibleOffice",
             Val.obj (format_office language cfg.default_language plr.responsible_office)),
            ("Map", Val.obj (format_map cfg params language plr.view_service))]
           ++ (if params.images then [("Symbol", Val.bin plr.symbol)]
               else if truthyStr plr.type_code then
                 [("SymbolRef", Val.ref (cfg.routeRoot ++ "/image/symbol")
                    [("theme_code", plr.theme.code), ("type_code", plr.type_code.getD "")])]
               else [])
           ++ (if truthyStr plr.subtopic then [("SubTheme", optStrVal plr.subtopic)] else [])
           ++ (if truthyStr plr.additional_topic then
                 [("OtherTheme", optStrVal plr.additional_topic)] else [])
           ++ (if truthyStr plr.type_code then [("TypeCode", optStrVal plr.type_code)] else [])
           ++ (if truthyStr plr.type_code_list then
                 [("TypeCodelist", optStrVal plr.type_code_list)] else [])
           ++ (if truthyInt plr.part_in_percent then
                 [("PartInPercent", Val.int (plr.part_in_percent.getD 0))] else [])
           ++ geomKeys
           ++ (if nonEmptyListOpt plr.documents then
                 [("LegalProvisions",
                   Val.arr (format_document_list language cfg.default_language
                     (plr.documents.getD [])))] else []))

/-- `Renderer.format_plr`: the loop over the restriction list (every list
element is a `PlrRecord` in this typed embedding, so the `isinstance`
guard always holds); the first raised exception aborts the whole list. -/
def format_plr (cfg : Config) (params : Parameter) (language : String) :
    List PlrRecord → Except RenderError (List Node)
  | [] => .ok []
  | plr :: rest =>
    match format_plr_single cfg params language plr with
    | .error e => .error e
    | .ok n =>
      match format_plr cfg params language rest with
      | .error e => .error e
      | .ok ns => .ok (n :: ns)

/-- `RealEstateRecord` as consumed by `format_real_estate`. -/
structure RealEstateRecord where
  rtype : String
  canton : String
  municipality : String
  fosnr : Int
  land_registry_area : Int
  plan_for_land_register : MapRecord
  limit : Geom
  number : Option String
  identdn : Option String
  egrid : Option String
  subunit_of_land_register : Option String
  metadata_of_geographical_base_data : Option String
  public_law_restrictions : Option (List PlrRecord)
  references : Option (List DocumentRecord)

/-- The `RestrictionOnLandownership` portion of the real estate node:
present when the restriction list is present and non-empty, raising
through `format_plr`. -/
def format_real_estate_plr_part (cfg : Config) (params : Parameter) (language : String)
    (re : RealEstateRecord) : Except RenderError Node :=
  match re.public_law_restrictions with
  | some l =>
    if l.length > 0 then
      match format_plr cfg params language l with
      | .error e => .error e
      | .ok nodes => .ok [("RestrictionOnLandownership", Val.arr (nodes.map Val.obj))]
    else .ok []
  | none => .ok []

/-- `Renderer.format_real_estate`. -/
def format_real_estate (cfg : Config) (params : Parameter) (language : String)
    (re : RealEstateRecord) : Except RenderError Node :=
  match format_real_estate_plr_part cfg params language re with
  | .error e => .error e
  | .ok plrKeys =>
    .ok ([("Type", Val.str re.rtype),
          ("Canton", Val.str re.canton),
          ("Municipality", Val.str re.municipality),
          ("FosNr", Val.int re.fosnr),
          ("LandRegistryArea", Val.int re.land_registry_area),
          ("PlanForLandRegister", Val.obj (format_map cfg params language re.plan_for_land_register))]
         ++ (if params.geometry then [("Limit", from_shapely cfg re.limit)] else [])
         ++ (if truthyStr re.number then [("Number", optStrVal re.number)] else [])
         ++ (if truthyStr re.identdn then [("IdentDN", optStrVal re.identdn)] else [])
         ++ (if truthyStr re.egrid then [("EGRID", optStrVal re.egrid)] else [])
         ++ (if truthyStr re.subunit_of_land_register then
               [("SubunitOfLandRegister", optStrVal re.subunit_of_land_register)] else [])
         ++ (if truthyStr re.metadata_of_geographical_base_data then
               [("MetadataOfGeographicalBaseData",
                 optStrVal re.metadata_of_geographical_base_data)] else [])
         ++ plrKeys
         ++ (match re.references with
             | some l => if l.length > 0 then
                 [("Reference", Val.arr (format_document_list language cfg.default_language l))]
               else []
             | none => []))

/-- A liability-exclusion or glossary entry: a localized title/content pair. -/
structure TitleContent where
  title : MultiVal
  content : MultiVal

/-- `ExtractRecord` as consumed by `_render`. -/
structure ExtractRecord where
  creation_date : String
  extract_identifier : String
  base_data : MultiVal
  plr_cadastre_authority : OfficeRecord
  real_estate : RealEstateRecord
  concerned_theme : List ThemeRecord
  not_concerned_theme : List ThemeRecord
  theme_without_data : List ThemeRecord
  electronic_signature : Option String
  qr_code : Option String
  general_information : Option MultiVal
  exclusions_of_liability : Option (List TitleContent)
  glossaries : Option (List TitleContent)
  logo_plr_cadastre : String
  federal_logo : String
  cantonal_logo : String
  municipality_logo : String

/-- `Base.date_time` (in `lib/renderer/__init__.py`, outside the covered
sources) serializes the creation timestamp; modelled as the timestamp
string itself — no claim depends on its shape. -/
def date_time (d : String) : Val := Val.str d

/-- The body of `Renderer._render` (the extract orchestrator), with
`self._language` already computed.  Builds the fixed header
keys (with `isReduced` derived from the flavour), the real estate node
(which can raise through `format_plr` / `format_geometry`), the theme
groupings, then either the four inline logo payloads (image mode) or the
four logo reference URLs, then the truthiness-guarded optional keys and
the non-empty-list-guarded sequences. -/
def render_body (cfg : Config) (params : Parameter) (language : String)
    (extract : ExtractRecord) : Except RenderError Node :=
  match format_real_estate cfg params language extract.real_estate with
  | .error e => .error e
  | .ok re_node =>
    .ok ([("CreationDate", date_time extract.creation_date),
          ("isReduced", Val.bool (params.flavour == "reduced" || params.flavour == "embeddable")),
          ("ExtractIdentifier", Val.str extract.extract_identifier),
          ("BaseData", Val.arr (get_localized_text language cfg.default_language extract.base_data)),
          ("PLRCadastreAuthority",
           Val.obj (format_office language cfg.default_language extract.plr_cadastre_authority)),
          ("RealEstate", Val.obj re_node),
          ("ConcernedTheme",
           Val.arr (extract.concerned_theme.map
             (fun t => Val.obj (format_theme language cfg.default_language t)))),
          ("NotConcernedTheme",
           Val.arr (extract.not_concerned_theme.map
             (fun t => Val.obj (format_theme language cfg.default_language t)))),
          ("ThemeWithoutData",
           Val.arr (extract.theme_without_data.map
             (fun t => Val.obj (format_theme language cfg.default_language t))))]
         ++ (if params.images then
               [("LogoPLRCadastre", Val.bin extract.logo_plr_cadastre),
                ("FederalLogo", Val.bin extract.federal_logo),
                ("CantonalLogo", Val.bin extract.cantonal_logo),
                ("MunicipalityLogo", Val.bin extract.municipality_logo)]
             else
               [("LogoPLRCadastreRef", Val.ref (cfg.routeRoot ++ "/image/logo")
                  [("logo", "oereb")]),
                ("FederalLogoRef", Val.ref (cfg.routeRoot ++ "/image/logo")
                  [("logo", "confederation")]),
                ("CantonalLogoRef", Val.ref (cfg.routeRoot ++ "/image/logo")
                  [("logo", "canton")]),
                ("MunicipalityLogoRef", Val.ref (cfg.routeRoot ++ "/image/municipality")
                  [("fosnr", toString extract.real_estate.fosnr)])])
         ++ (if truthyStr extract.electronic_signature then
               [("ElectronicSignature", optStrVal extract.electronic_signature)] else [])
         ++ (if truthyStr extract.qr_code then [("QRCode", optStrVal extract.qr_code)] else [])
         ++ (if truthyMulti extract.general_information then
               [("GeneralInformation",
                 Val.arr (get_localized_text language cfg.default_language
                   (extract.general_information.getD (.plain ""))))] else [])
         ++ (if nonEmptyListOpt extract.exclusions_of_liability then
               [("ExclusionOfLiability",
                 Val.arr ((extract.exclusions_of_liability.getD []).map (fun e => Val.obj
                   [("Title", Val.arr (get_localized_text language cfg.default_language e.title)),
                    ("Content",
                     Val.arr (get_localized_text language cfg.default_language e.content))])))]
             else [])
         ++ (if nonEmptyListOpt extract.glossaries then
               [("Glossary",
                 Val.arr ((extract.glossaries.getD []).map (fun g => Val.obj
                   [("Title", Val.arr (get_localized_text language cfg.default_language g.title)),
                    ("Content",
                     Val.arr (get_localized_text language cfg.default_language g.content))])))]
             else []))

/-- `Renderer._render`: compute `self._language` from the parameter (or
the configured default), then serialize the extract. -/
def _render (cfg : Config) (params : Parameter) (extract : ExtractRecord) :
    Except RenderError Node :=
  render_body cfg params (renderer_language cfg.default_language params.language) extract

/-! ## Object-graph semantics for `format_document`

Python documents are heap objects referenced from each other, so a
document's `references` list may reach a document that is already being
formatted — nothing in the source forbids a cycle.  To reason about that,
the reference structure of `format_document` is modelled over an explicit
heap `g : Nat → Option DocRefNode` with identifiers in place of object
references, and a fuel argument standing for the recursion (call stack)
depth: `none` means the recursion depth budget was exhausted before the
formatting completed.  The source carries no set of currently-formatting
documents; the recursion descends into every referenced identifier
unconditionally, exactly as `format_document` recurses into
`document.references`. -/

/-- A document object on the heap, reduced to the fields that drive the
recursion of `format_document`: its scalar payload and its list of
referenced documents (by identifier). -/
structure DocRefNode where
  legal_state : String
  title : MultiVal
  references : List Nat

mutual

/-- `format_document` over the heap, with explicit recursion-depth fuel:
builds the fixed keys and recurses into every referenced identifier, with
no guard against meeting an identifier already on the stack. -/
def format_document_g (language default_language : String) (g : Nat → Option DocRefNode) :
    Nat → Nat → Option Node
  | 0, _ => none
  | fuel + 1, i =>
    match g i with
    | none => some []
    | some d =>
      if d.references.length > 0 then
        match format_document_list_g language default_language g fuel d.references with
        | none => none
        | some ns =>
          some ([("Lawstatus", Val.str d.legal_state),
                 ("Title", Val.arr (get_localized_text language default_language d.title))]
                ++ [("Reference", Val.arr ns)])
      else
        some [("Lawstatus", Val.str d.legal_state),
              ("Title", Val.arr (get_localized_text language default_language d.title))]

/-- The loop over the reference list, at the given recursion depth. -/
def format_document_list_g (language default_language : String) (g : Nat → Option DocRefNode) :
    Nat → List Nat → Option (List Val)
  | _, [] => some []
  | fuel, i :: is =>
    match format_document_g language default_language g fuel i with
    | none => none
    | some n =>
      match format_document_list_g language default_language g fuel is with
      | none => none
      | some ns => some (Val.obj n :: ns)

end

/-- The formatting of document `i` never completes, whatever recursion
depth budget it is given. -/
def format_document_g_diverges (language default_language : String)
    (g : Nat → Option DocRefNode) (i : Nat) : Prop :=
  ∀ fuel, format_document_g language default_language g fuel i = none

/-- A one-document heap whose document lists itself among its references. -/
def selfRefHeap : Nat → Option DocRefNode :=
  fun i => if i = 0 then some ⟨"inForce", .plain "t", [0]⟩ else none

/-- No geometry of the restriction will make `format_geometry` raise:
either geometry inclusion is off, or every geometry's native type tag is
covered by the configured category table. -/
def plr_geoms_classifiable (cfg : Config) (params : Parameter) (plr : PlrRecord) : Bool :=
  !params.geometry
    || (plr.geometries.getD []).all (fun g => (classify cfg.geometry_types g.geom.gtype).isSome)

/-! ## Concrete fixtures used by witnesses and counterexamples -/

def cfg₀ : Config :=
  { default_language := "de"
  , geometry_types :=
      { point := ["Point", "MultiPoint"]
      , line := ["LineString", "MultiLineString"]
      , polygon := ["Polygon", "MultiPolygon"] }
  , srid := 2056
  , routeRoot := "oereb" }

def officeNameOnly : OfficeRecord :=
  ⟨.plain "Amt", none, none, none, none, none, none, none, none⟩

def map₀ : MapRecord := ⟨none, none, none, none⟩

def theme₀ : ThemeRecord := ⟨"ContaminatedSites", .dict [("de", "Belastete Standorte")]⟩

def doc₀ : DocumentRecord := .article "inForce" "1" none none

def geomPoint : GeometryRecord := ⟨⟨"Point", Val.null⟩, "inForce", officeNameOnly, none⟩

def geomWeird : GeometryRecord := ⟨⟨"Weird", Val.null⟩, "inForce", officeNameOnly, none⟩

def plrBase : PlrRecord :=
  { content := .plain "c"
  , theme := theme₀
  , legal_state := "inForce"
  , area := none
  , responsible_office := officeNameOnly
  , view_service := map₀
  , symbol := "SYM"
  , subtopic := none
  , additional_topic := none
  , type_code := some "tc"
  , type_code_list := none
  , part_in_percent := none
  , geometries := none
  , documents := some [doc₀] }

def plrEmptyDocs : PlrRecord := { plrBase with documents := some [] }

def plrBadGeom : PlrRecord := { plrBase with geometries := some [geomWeird] }

def re₀ : RealEstateRecord :=
  { rtype := "Liegenschaft"
  , canton := "BL"
  , municipality := "Liestal"
  , fosnr := 1234
  , land_registry_area := 500
  , plan_for_land_register := map₀
  , limit := ⟨"Polygon", Val.arr []⟩
  , number := none
  , identdn := none
  , egrid := none
  , subunit_of_land_register := none
  , metadata_of_geographical_base_data := none
  , public_law_restrictions := none
  , references := none }

def ext₀ : ExtractRecord :=
  { creation_date := "2017-06-19"
  , extract_identifier := "E1"
  , base_data := .plain "base"
  , plr_cadastre_authority := officeNameOnly
  , real_estate := re₀
  , concerned_theme := []
  , not_concerned_theme := []
  , theme_without_data := []
  , electronic_signature := none
  , qr_code := none
  , general_information := none
  , exclusions_of_liability := none
  , glossaries := none
  , logo_plr_cadastre := "L1"
  , federal_logo := "L2"
  , cantonal_logo := "L3"
  , municipality_logo := "L4" }

def paramsEmb : Parameter :=
  { flavour := "embeddable", language := some "de", images := false, geometry := false }

def paramsBanana : Parameter :=
  { flavour := "banana", language := some "de", images := false, geometry := false }

def paramsFull : Parameter :=
  { flavour := "full", language := some "de", images := false, geometry := false }

def paramsFullGeom : Parameter :=
  { flavour := "full", language := some "de", images := false, geometry := true }

def paramsReduced : Parameter :=
  { flavour := "reduced", language := some "de", images := false, geometry := false }

def paramsFullImg : Parameter :=
  { flavour := "full", language := some "de", images := true, geometry := false }

/-- The node rendered for `ext₀` under the `embeddable`/no-images mode. -/
def renderEmbNode : Node :=
  match _render cfg₀ paramsEmb ext₀ with
  | .ok n => n
  | .error _ => []

/-- The node rendered for `ext₀` under the unrecognized flavour `banana`. -/
def renderBananaNode : Node :=
  match _render cfg₀ paramsBanana ext₀ with
  | .ok n => n
  | .error _ => []

/-- The restriction node rendered for `plrBase` in image mode. -/
def plrImgNode0 : Node :=
  (match format_plr cfg₀ paramsFullImg "de" [plrBase] with
   | .ok ns => ns
   | .error _ => []).headD []

/-- An office with only the mandatory name and a zero postal code. -/
def officePostalZero : OfficeRecord := { officeNameOnly with postal_code := some 0 }

/-! ## Helper lemmas -/

theorem hasKey_nil (k : String) : hasKey [] k = false := rfl

theorem hasKey_cons (k₁ : String) (v : Val) (n : Node) (k : String) :
    hasKey ((k₁, v) :: n) k = ((k₁ == k) || hasKey n k) := rfl

theorem hasKey_append (a b : Node) (k : String) :
    hasKey (a ++ b) k = (hasKey a k || hasKey b k) := List.any_append

theorem hasKey_condSingle (c : Bool) (K : String) (v : Val) (k : String) :
    hasKey (if c then [(K, v)] else []) k = (c && (K == k)) := by
  cases c <;> simp [hasKey]

theorem hasKey_single (K : String) (v : Val) (k : String) :
    hasKey [(K, v)] k = (K == k) := by
  simp [hasKey]

theorem getKey_cons (k₁ : String) (v : Val) (n : Node) (k : String) :
    getKey ((k₁, v) :: n) k = if (k₁ == k) then some v else getKey n k := by
  by_cases h : (k₁ == k) = true <;> simp [getKey, List.find?_cons, h]

theorem dictGet_eq_none (vs : List (String × String)) (k : String)
    (h : dictHas vs k = false) : dictGet vs k = none := by
  unfold dictGet
  rw [List.find?_eq_none.mpr, Option.map_none']
  intro p hp
  unfold dictHas at h
  rw [List.any_eq_false] at h
  exact h p hp

theorem isEmptyListOpt_iff {α : Type} (o : Option (List α)) :
    isEmptyListOpt o = true ↔ o = some [] := by
  cases o with
  | none => simp [isEmptyListOpt]
  | some l => cases l <;> simp [isEmptyListOpt]

/-! ## ASCII lowering lemmas -/

theorem toNat_ofNat_valid (n : Nat) (h : n < 55296) : (Char.ofNat n).toNat = n := by
  unfold Char.ofNat
  rw [dif_pos (Or.inl h)]
  unfold Char.ofNatAux Char.toNat
  simp [UInt32.toNat]

theorem isUpperA_lowerChar (c : Char) : isUpperA (lowerChar c) = false := by
  unfold lowerChar
  by_cases h : isUpperA c = true
  · rw [if_pos h]
    unfold isUpperA at *
    simp only [decide_eq_true_eq] at h
    have h2 : (Char.ofNat (c.toNat + 32)).toNat = c.toNat + 32 := by
      apply toNat_ofNat_valid; omega
    simp [h2]
    omega
  · rw [if_neg h]; simpa using h

theorem lowerChar_lowerChar (c : Char) : lowerChar (lowerChar c) = lowerChar c := by
  have h := isUpperA_lowerChar c
  unfold lowerChar at *
  rw [if_neg (by simp [h])]

theorem data_lowerStr (s : String) : (lowerStr s).data = s.data.map lowerChar := rfl

theorem lowerStr_lowerStr (s : String) : lowerStr (lowerStr s) = lowerStr s := by
  unfold lowerStr
  apply congrArg String.mk
  show List.map lowerChar (List.map lowerChar s.data) = List.map lowerChar s.data
  rw [List.map_map]
  apply List.map_congr_left
  intro c _
  exact lowerChar_lowerChar c

theorem not_isUpperA_mem_lowerStr (s : String) (c : Char) (h : c ∈ (lowerStr s).data) :
    isUpperA c = false := by
  rw [data_lowerStr] at h
  obtain ⟨c', _, rfl⟩ := List.mem_map.mp h
  exact isUpperA_lowerChar c'

/-! ## C8 and C2: the localized text resolver -/

/-- **C8**: the resolver's output is always a one-element sequence, and on
a plain (non-mapping) value it is exactly
`[{Language: default_language, Text: value}]` for every requested
language. -/
theorem get_localized_text_singleton (language default_language : String) (values : MultiVal) :
    (get_localized_text language default_language values).length = 1
    ∧ ∀ s, get_localized_text language default_language (.plain s)
        = [Val.obj [("Language", Val.str default_language), ("Text", Val.str s)]] := by
  constructor
  · cases values with
    | dict vs =>
      unfold get_localized_text
      by_cases h : dictHas vs language = true <;> simp [h]
    | plain v => rfl
  · intro s; rfl

/-- **C2 counterexample**: with the mapping `{"fr": "B"}`, requested
language `"de"` and default language `"de"`, the resolver does not fail:
it returns the one-element fallback sequence with a null text. -/
theorem get_localized_text_missing_default_counterexample :
    get_localized_text "de" "de" (.dict [("fr", "B")])
      = [Val.obj [("Language", Val.str "de"), ("Text", Val.null)]] := rfl

/-- **C2 (amended)**: when neither the requested language nor the default
language is a key of the mapping, the resolver does not fail: it returns
the one-element fallback sequence `{Language: default_language, Text: null}`
(the `dict.get` of the absent default key). -/
theorem get_localized_text_missing_default (language default_language : String)
    (vs : List (String × String))
    (h1 : dictHas vs language = false) (h2 : dictHas vs default_language = false) :
    get_localized_text language default_language (.dict vs)
      = [Val.obj [("Language", Val.str default_language), ("Text", Val.null)]] := by
  show (if dictHas vs language = true then _ else _) = _
  rw [if_neg (by simp [h1]), dictGet_eq_none vs default_language h2]
  rfl

/-- **C2 witness**: the amended claim instantiated at the mapping
`{"fr": "B"}` with requested language `"it"` and default `"en"`. -/
theorem get_localized_text_missing_default_witness :
    (dictHas [("fr", "B")] "it" = false ∧ dictHas [("fr", "B")] "en" = false)
    ∧ get_localized_text "it" "en" (.dict [("fr", "B")])
        = [Val.obj [("Language", Val.str "en"), ("Text", Val.null)]] :=
  ⟨⟨by decide, by decide⟩,
   get_localized_text_missing_default "it" "en" [("fr", "B")] (by decide) (by decide)⟩

/-! ## C10: case-asymmetric language matching -/

/-- **C10**: the requested language (the parameter language when truthy,
else the configured default) is lowercased before being used as the lookup
key, while the mapping's own keys and the default language used in the
fallback branch are not normalized: if every key of the mapping that
lowercases to the requested language contains an uppercase letter, the
requested-language branch never matches and the fallback entry — keyed by
the raw default language — is returned. -/
theorem renderer_language_case_asymmetric (default_language l : String)
    (vs : List (String × String)) (hl : l ≠ "")
    (hk : ∀ k ∈ vs.map Prod.fst, lowerStr k = lowerStr l → ∃ c ∈ k.data, isUpperA c = true) :
    renderer_language default_language (some l) = lowerStr l
    ∧ renderer_language default_language none = lowerStr default_language
    ∧ get_localized_text (renderer_language default_language (some l)) default_language (.dict vs)
        = [Val.obj [("Language", Val.str default_language),
                    ("Text", optStrVal (dictGet vs default_language))]] := by
  have hrl : renderer_language default_language (some l) = lowerStr l := by
    show (if l ≠ "" then lowerStr l else lowerStr default_language) = lowerStr l
    rw [if_pos hl]
  refine ⟨hrl, rfl, ?_⟩
  rw [hrl]
  have hmiss : dictHas vs (lowerStr l) = false := by
    by_contra hcon
    rw [Bool.not_eq_false] at hcon
    unfold dictHas at hcon
    rw [List.any_eq_true] at hcon
    obtain ⟨p, hp, hpk⟩ := hcon
    have hpk' : p.1 = lowerStr l := by simpa using hpk
    obtain ⟨c, hc, hcu⟩ :=
      hk p.1 (List.mem_map.mpr ⟨p, hp, rfl⟩) (by rw [hpk', lowerStr_lowerStr])
    have hlow : isUpperA c = false := not_isUpperA_mem_lowerStr l c (hpk' ▸ hc)
    simp [hcu] at hlow
  show (if dictHas vs (lowerStr l) = true then _ else _) = _
  rw [if_neg (by simp [hmiss])]

/-- **C10 witness**: requesting `"de"` (lowercased to `"de"`) against a
mapping whose only key is `"DE"` takes the fallback branch with the raw
default `"fr"` and a null text. -/
theorem renderer_language_case_asymmetric_witness :
    get_localized_text (renderer_language "fr" (some "de")) "fr" (.dict [("DE", "x")])
      = [Val.obj [("Language", Val.str "fr"), ("Text", Val.null)]] :=
  (renderer_language_case_asymmetric "fr" "de" [("DE", "x")] (by decide) (by decide)).2.2

/-! ## C9: office formatting -/

/-- **C9 counterexample**: an office whose postal code is the integer `0`
— present and non-null — is rendered without the `PostalCode` key, because
the renderer's `if office.postal_code:` check uses Python truthiness and
`0` is falsy. -/
theorem format_office_postal_zero_counterexample :
    officePostalZero.postal_code = some 0
    ∧ format_office "de" "de" officePostalZero
        = [("Name", Val.arr (get_localized_text "de" "de" (.plain "Amt")))]
    ∧ hasKey (format_office "de" "de" officePostalZero) "PostalCode" = false :=
  ⟨rfl, rfl, rfl⟩

/-- **C9 (amended)**: `format_office` always emits `Name`, and emits each
optional key exactly when the corresponding field is truthy — non-null and
non-empty for the string fields, non-null and nonzero for the integer
`PostalCode`; an office with only `name` set is rendered as exactly the
one-key node `{Name}`. -/
theorem format_office_keys (language default_language : String) (o : OfficeRecord) :
    hasKey (format_office language default_language o) "Name" = true
    ∧ hasKey (format_office language default_language o) "OfficeAtWeb" = truthyStr o.office_at_web
    ∧ hasKey (format_office language default_language o) "UID" = truthyStr o.uid
    ∧ hasKey (format_office language default_language o) "Line1" = truthyStr o.line1
    ∧ hasKey (format_office language default_language o) "Line2" = truthyStr o.line2
    ∧ hasKey (format_office language default_language o) "Street" = truthyStr o.street
    ∧ hasKey (format_office language default_language o) "Number" = truthyStr o.number
    ∧ hasKey (format_office language default_language o) "PostalCode" = truthyInt o.postal_code
    ∧ hasKey (format_office language default_language o) "City" = truthyStr o.city
    ∧ ∀ nm, format_office language default_language
          ⟨nm, none, none, none, none, none, none, none, none⟩
        = [("Name", Val.arr (get_localized_text language default_language nm))] := by
  refine ⟨?_, ?_, ?_, ?_, ?_, ?_, ?_, ?_, ?_, fun nm => rfl⟩
  all_goals
    simp +decide [format_office, hasKey_cons, hasKey_append, hasKey_condSingle, hasKey_single]

/-! ## C5: geometry classification -/

theorem format_geometry_of_classify_none (cfg : Config) (language : String) (g : GeometryRecord)
    (hc : classify cfg.geometry_types g.geom.gtype = none) :
    format_geometry cfg language g = .error (.unknownGeometryType g.geom.gtype) := by
  unfold format_geometry
  rw [hc]

theorem format_geometry_of_classify_some (cfg : Config) (language : String) (g : GeometryRecord)
    (k : String) (hc : classify cfg.geometry_types g.geom.gtype = some k) :
    ∃ rest, format_geometry cfg language g = .ok ((k, from_shapely cfg g.geom) :: rest) := by
  unfold format_geometry
  rw [hc]
  exact ⟨_, rfl⟩

/-- **C5**: `format_geometry` fails with `unknownGeometryType` exactly when
the native type tag belongs to none of the three configured category sets,
and otherwise the node's leading key is the classification result, where
the `if/elif` chain makes the first matching category win (`Point`, then
`Line`, then `Surface`). -/
theorem format_geometry_classification (cfg : Config) (language : String) (g : GeometryRecord) :
    ((format_geometry cfg language g = .error (.unknownGeometryType g.geom.gtype))
      ↔ (g.geom.gtype ∉ cfg.geometry_types.point ∧ g.geom.gtype ∉ cfg.geometry_types.line
           ∧ g.geom.gtype ∉ cfg.geometry_types.polygon))
    ∧ (∀ node, format_geometry cfg language g = .ok node →
         node.head?.map Prod.fst = classify cfg.geometry_types g.geom.gtype)
    ∧ (g.geom.gtype ∈ cfg.geometry_types.point →
         classify cfg.geometry_types g.geom.gtype = some "Point")
    ∧ (g.geom.gtype ∉ cfg.geometry_types.point → g.geom.gtype ∈ cfg.geometry_types.line →
         classify cfg.geometry_types g.geom.gtype = some "Line")
    ∧ (g.geom.gtype ∉ cfg.geometry_types.point → g.geom.gtype ∉ cfg.geometry_types.line →
         g.geom.gtype ∈ cfg.geometry_types.polygon →
         classify cfg.geometry_types g.geom.gtype = some "Surface") := by
  have hcl : classify cfg.geometry_types g.geom.gtype = none
      ↔ (g.geom.gtype ∉ cfg.geometry_types.point ∧ g.geom.gtype ∉ cfg.geometry_types.line
           ∧ g.geom.gtype ∉ cfg.geometry_types.polygon) := by
    unfold classify
    by_cases h1 : g.geom.gtype ∈ cfg.geometry_types.point <;>
      by_cases h2 : g.geom.gtype ∈ cfg.geometry_types.line <;>
        by_cases h3 : g.geom.gtype ∈ cfg.geometry_types.polygon <;>
          simp [h1, h2, h3]
  refine ⟨?_, ?_, ?_, ?_, ?_⟩
  · cases hc : classify cfg.geometry_types g.geom.gtype with
    | none =>
      rw [format_geometry_of_classify_none cfg language g hc]
      exact ⟨fun _ => hcl.mp hc, fun _ => rfl⟩
    | some k =>
      obtain ⟨rest, hfmt⟩ := format_geometry_of_classify_some cfg language g k hc
      rw [hfmt]
      constructor
      · intro h; exact absurd h (by simp)
      · intro hrhs; exact absurd (hcl.mpr hrhs) (by simp [hc])
  · intro node h
    cases hc : classify cfg.geometry_types g.geom.gtype with
    | none =>
      rw [format_geometry_of_classify_none cfg language g hc] at h
      exact absurd h (by simp)
    | some k =>
      obtain ⟨rest, hfmt⟩ := format_geometry_of_classify_some cfg language g k hc
      rw [hfmt] at h
      simp only [Except.ok.injEq] at h
      subst h
      rfl
  · intro h1
    unfold classify
    rw [if_pos h1]
  · intro h1 h2
    unfold classify
    rw [if_neg h1, if_pos h2]
  · intro h1 h2 h3
    unfold classify
    rw [if_neg h1, if_neg h2, if_pos h3]

/-- **C5 witness**: under the configured table of `cfg₀`, the unknown tag
`"Weird"` raises, and the tag `"Point"` classifies to `Point`. -/
theorem format_geometry_classification_witness :
    format_geometry cfg₀ "de" geomWeird = .error (.unknownGeometryType "Weird")
    ∧ classify cfg₀.geometry_types "Point" = some "Point" :=
  ⟨(format_geometry_classification cfg₀ "de" geomWeird).1.mpr (by decide),
   (format_geometry_classification cfg₀ "de" geomPoint).2.2.1 (by decide)⟩

/-! ## C4: format_document has no cycle guard -/

theorem format_document_list_g_none_of_mem (language default_language : String)
    (g : Nat → Option DocRefNode) (fuel : Nat) (i : Nat) (is : List Nat) (hi : i ∈ is)
    (h : format_document_g language default_language g fuel i = none) :
    format_document_list_g language default_language g fuel is = none := by
  induction is with
  | nil => cases hi
  | cons a as ih =>
    rcases List.mem_cons.mp hi with rfl | hmem
    · unfold format_document_list_g
      rw [h]
    · unfold format_document_list_g
      cases ha : format_document_g language default_language g fuel a with
      | none => rfl
      | some n =>
        rw [ih hmem]

theorem format_document_g_none_of_self_ref (language default_language : String)
    (g : Nat → Option DocRefNode) (i : Nat) (d : DocRefNode)
    (hg : g i = some d) (hi : i ∈ d.references) :
    ∀ fuel, format_document_g language default_language g fuel i = none := by
  intro fuel
  induction fuel with
  | zero => simp [format_document_g]
  | succ n ih =>
    unfold format_document_g
    simp only [hg]
    have hlen : d.references.length > 0 :=
      List.length_pos.mpr (List.ne_nil_of_mem hi)
    rw [if_pos hlen,
        format_document_list_g_none_of_mem language default_language g n i d.references hi ih]

/-- **C4 counterexample**: on the heap whose single document references
itself, `format_document` never completes — every recursion depth budget
is exhausted; it does not fail with a dedicated cyclic-reference error and
does not refuse to re-descend. -/
theorem format_document_cycle_counterexample :
    format_document_g_diverges "de" "de" selfRefHeap 0 :=
  format_document_g_none_of_self_ref "de" "de" selfRefHeap 0
    ⟨"inForce", .plain "t", [0]⟩ rfl (by decide)

/-- **C4 (amended)**: `format_document` carries no set of
currently-formatting identifiers and has no cyclic-reference failure: on
any document heap in which a document lists itself among its references,
it re-descends into the document it is already formatting and the
recursion is unbounded — formatting completes for no recursion depth
budget.  (On the tree-shaped records of `DocumentRecord` the recursion is
structural and terminates.) -/
theorem format_document_no_cycle_guard (language default_language : String)
    (g : Nat → Option DocRefNode) (i : Nat) (d : DocRefNode)
    (hg : g i = some d) (hi : i ∈ d.references) :
    format_document_g_diverges language default_language g i :=
  format_document_g_none_of_self_ref language default_language g i d hg hi

/-- **C4 witness**: the amended claim instantiated at the self-referencing
heap. -/
theorem format_document_no_cycle_guard_witness :
    selfRefHeap 0 = some ⟨"inForce", MultiVal.plain "t", [0]⟩
    ∧ 0 ∈ ([0] : List Nat)
    ∧ format_document_g_diverges "fr" "it" selfRefHeap 0 :=
  ⟨rfl, by decide,
   format_document_no_cycle_guard "fr" "it" selfRefHeap 0
     ⟨"inForce", MultiVal.plain "t", [0]⟩ rfl (by decide)⟩

/-! ## Restriction formatting: helper lemmas -/

theorem hasKey_condSingle2 (b t : Bool) (K1 K2 : String) (v w : Val) (k : String) :
    hasKey (if b then [(K1, v)] else if t then [(K2, w)] else []) k
      = ((b && (K1 == k)) || (!b && t && (K2 == k))) := by
  cases b <;> cases t <;> simp [hasKey]

theorem format_geometry_list_ok (cfg : Config) (language : String) (l : List GeometryRecord)
    (h : ∀ g ∈ l, (classify cfg.geometry_types g.geom.gtype).isSome = true) :
    ∃ ns, format_geometry_list cfg language l = .ok ns := by
  induction l with
  | nil => exact ⟨[], rfl⟩
  | cons a as ih =>
    obtain ⟨k, hk⟩ := Option.isSome_iff_exists.mp (h a (by simp))
    obtain ⟨rest, hfmt⟩ := format_geometry_of_classify_some cfg language a k hk
    obtain ⟨ns, hns⟩ := ih (fun g hg => h g (by simp [hg]))
    refine ⟨Val.obj ((k, from_shapely cfg a.geom) :: rest) :: ns, ?_⟩
    unfold format_geometry_list
    rw [hfmt, hns]

theorem format_geometry_list_error (cfg : Config) (language : String) (l : List GeometryRecord)
    (e : RenderError) (h : format_geometry_list cfg language l = .error e) :
    ∃ t, e = .unknownGeometryType t := by
  induction l with
  | nil => exact absurd h (by simp [format_geometry_list])
  | cons a as ih =>
    unfold format_geometry_list at h
    cases hf : format_geometry cfg language a with
    | error e' =>
      rw [hf] at h
      simp only [Except.error.injEq] at h
      subst h
      cases hc : classify cfg.geometry_types a.geom.gtype with
      | none =>
        rw [format_geometry_of_classify_none cfg language a hc] at hf
        simp only [Except.error.injEq] at hf
        exact ⟨_, hf.symm⟩
      | some k =>
        obtain ⟨rest, hfmt⟩ := format_geometry_of_classify_some cfg language a k hc
        rw [hfmt] at hf
        exact absurd hf (by simp)
    | ok n =>
      rw [hf] at h
      cases hl : format_geometry_list cfg language as with
      | error e' =>
        rw [hl] at h
        simp only [Except.error.injEq] at h
        subst h
        exact ih hl
      | ok ns =>
        rw [hl] at h
        exact absurd h (by simp)

theorem format_plr_geom_part_ok (cfg : Config) (params : Parameter) (language : String)
    (plr : PlrRecord) (h : plr_geoms_classifiable cfg params plr = true) :
    ∃ gk, format_plr_geom_part cfg params language plr = .ok gk := by
  unfold format_plr_geom_part
  by_cases hc : (params.geometry && nonEmptyListOpt plr.geometries) = true
  · rw [if_pos hc]
    have hg : params.geometry = true := (Bool.and_eq_true _ _).mp hc |>.1
    have hgeo : ∀ g ∈ plr.geometries.getD [],
        (classify cfg.geometry_types g.geom.gtype).isSome = true := by
      unfold plr_geoms_classifiable at h
      rw [hg] at h
      simpa [List.all_eq_true] using h
    obtain ⟨ns, hns⟩ := format_geometry_list_ok cfg language _ hgeo
    rw [hns]
    exact ⟨_, rfl⟩
  · rw [if_neg hc]
    exact ⟨[], rfl⟩

theorem format_plr_geom_part_error (cfg : Config) (params : Parameter) (language : String)
    (plr : PlrRecord) (e : RenderError)
    (h : format_plr_geom_part cfg params language plr = .error e) :
    ∃ t, e = .unknownGeometryType t := by
  unfold format_plr_geom_part at h
  by_cases hc : (params.geometry && nonEmptyListOpt plr.geometries) = true
  · rw [if_pos hc] at h
    cases hl : format_geometry_list cfg language (plr.geometries.getD []) with
    | error e' =>
      rw [hl] at h
      simp only [Except.error.injEq] at h
      subst h
      exact format_geometry_list_error cfg language _ _ hl
    | ok ns =>
      rw [hl] at h
      exact absurd h (by simp)
  · rw [if_neg hc] at h
    exact absurd h (by simp)

theorem format_plr_geom_part_keys (cfg : Config) (params : Parameter) (language : String)
    (plr : PlrRecord) (gk : Node)
    (h : format_plr_geom_part cfg params language plr = .ok gk) (k : String)
    (hk : (("Geometry" : String) == k) = false) : hasKey gk k = false := by
  unfold format_plr_geom_part at h
  by_cases hc : (params.geometry && nonEmptyListOpt plr.geometries) = true
  · rw [if_pos hc] at h
    cases hl : format_geometry_list cfg language (plr.geometries.getD []) with
    | error e => rw [hl] at h; exact absurd h (by simp)
    | ok ns =>
      rw [hl] at h
      simp only [Except.ok.injEq] at h
      subst h
      simp [hasKey, hk]
  · rw [if_neg hc] at h
    simp only [Except.ok.injEq] at h
    subst h
    rfl

theorem format_plr_single_error_mlb (cfg : Config) (params : Parameter) (language : String)
    (plr : PlrRecord)
    (hcond : ((params.flavour != "reduced") && isEmptyListOpt plr.documents) = true) :
    format_plr_single cfg params language plr = .error .missingLegalBasis := by
  unfold format_plr_single
  rw [if_pos hcond]

theorem format_plr_single_ok (cfg : Config) (params : Parameter) (language : String)
    (plr : PlrRecord)
    (hcond : ((params.flavour != "reduced") && isEmptyListOpt plr.documents) = false)
    (hgeo : plr_geoms_classifiable cfg params plr = true) :
    ∃ n, format_plr_single cfg params language plr = .ok n := by
  unfold format_plr_single
  rw [if_neg (by simp [hcond])]
  obtain ⟨gk, hgk⟩ := format_plr_geom_part_ok cfg params language plr hgeo
  rw [hgk]
  exact ⟨_, rfl⟩

theorem format_plr_single_mlb_iff (cfg : Config) (params : Parameter) (language : String)
    (plr : PlrRecord) :
    (format_plr_single cfg params language plr = .error .missingLegalBasis)
      ↔ ((params.flavour != "reduced") && isEmptyListOpt plr.documents) = true := by
  constructor
  · intro h
    by_contra hc
    unfold format_plr_single at h
    rw [if_neg hc] at h
    cases hg : format_plr_geom_part cfg params language plr with
    | error e =>
      rw [hg] at h
      simp only [Except.error.injEq] at h
      obtain ⟨t, ht⟩ := format_plr_geom_part_error cfg params language plr e hg
      rw [h] at ht
      exact absurd ht (by simp)
    | ok gk =>
      rw [hg] at h
      exact absurd h (by simp)
  · exact format_plr_single_error_mlb cfg params language plr

theorem format_plr_single_keys (cfg : Config) (params : Parameter) (language : String)
    (plr : PlrRecord) (n : Node) (h : format_plr_single cfg params language plr = .ok n) :
    hasKey n "Symbol" = params.images
    ∧ hasKey n "SymbolRef" = (!params.images && truthyStr plr.type_code)
    ∧ hasKey n "LegalProvisions" = nonEmptyListOpt plr.documents := by
  unfold format_plr_single at h
  by_cases hc : ((params.flavour != "reduced") && isEmptyListOpt plr.documents) = true
  · rw [if_pos hc] at h
    exact absurd h (by simp)
  · rw [if_neg hc] at h
    cases hg : format_plr_geom_part cfg params language plr with
    | error e => rw [hg] at h; exact absurd h (by simp)
    | ok gk =>
      rw [hg] at h
      simp only [Except.ok.injEq] at h
      subst h
      have hgkk := format_plr_geom_part_keys cfg params language plr gk hg
      refine ⟨?_, ?_, ?_⟩
      · simp +decide [hasKey_cons, hasKey_append, hasKey_condSingle, hasKey_condSingle2,
          hgkk "Symbol" (by decide)]
      · simp +decide [hasKey_cons, hasKey_append, hasKey_condSingle, hasKey_condSingle2,
          hgkk "SymbolRef" (by decide)]
      · simp +decide [hasKey_cons, hasKey_append, hasKey_condSingle, hasKey_condSingle2,
          hgkk "LegalProvisions" (by decide)]

theorem format_plr_mlb_iff (cfg : Config) (params : Parameter) (language : String)
    (plrs : List PlrRecord)
    (hgeo : ∀ plr ∈ plrs, plr_geoms_classifiable cfg params plr = true) :
    (format_plr cfg params language plrs = .error .missingLegalBasis)
      ↔ ∃ plr ∈ plrs,
          ((params.flavour != "reduced") && isEmptyListOpt plr.documents) = true := by
  induction plrs with
  | nil => simp [format_plr]
  | cons a as ih =>
    have hgeo_as : ∀ plr ∈ as, plr_geoms_classifiable cfg params plr = true :=
      fun plr hp => hgeo plr (by simp [hp])
    by_cases hca : ((params.flavour != "reduced") && isEmptyListOpt a.documents) = true
    · unfold format_plr
      rw [format_plr_single_error_mlb cfg params language a hca]
      constructor
      · intro _
        exact ⟨a, List.mem_cons_self a as, hca⟩
      · intro _
        rfl
    · have hca' : ((params.flavour != "reduced") && isEmptyListOpt a.documents) = false := by
        simpa using hca
      obtain ⟨n, hn⟩ :=
        format_plr_single_ok cfg params language a hca' (hgeo a (by simp))
      unfold format_plr
      rw [hn]
      cases hrest : format_plr cfg params language as with
      | error e =>
        constructor
        · intro h
          simp only [Except.error.injEq] at h
          subst h
          obtain ⟨plr, hp, hcond⟩ := (ih hgeo_as).mp hrest
          exact ⟨plr, by simp [hp], hcond⟩
        · rintro ⟨plr, hp, hcond⟩
          rcases List.mem_cons.mp hp with rfl | hmem
          · exact absurd hcond (by simp [hca'])
          · have := (ih hgeo_as).mpr ⟨plr, hmem, hcond⟩
            rw [hrest] at this
            simp only [Except.error.injEq] at this
            rw [this]
      | ok ns =>
        constructor
        · intro h; exact absurd h (by simp)
        · rintro ⟨plr, hp, hcond⟩
          rcases List.mem_cons.mp hp with rfl | hmem
          · exact absurd hcond (by simp [hca'])
          · have := (ih hgeo_as).mpr ⟨plr, hmem, hcond⟩
            rw [hrest] at this
            exact absurd this (by simp)

theorem format_plr_ok_of_all (cfg : Config) (params : Parameter) (language : String)
    (plrs : List PlrRecord)
    (h : ∀ plr ∈ plrs, ∃ n, format_plr_single cfg params language plr = .ok n) :
    ∃ nodes, format_plr cfg params language plrs = .ok nodes
      ∧ nodes.length = plrs.length
      ∧ ∀ i (hi : i < plrs.length) (hj : i < nodes.length),
          format_plr_single cfg params language (plrs.get ⟨i, hi⟩)
            = .ok (nodes.get ⟨i, hj⟩) := by
  induction plrs with
  | nil => exact ⟨[], rfl, rfl, fun i hi => absurd hi (by simp)⟩
  | cons a as ih =>
    obtain ⟨n, hn⟩ := h a (by simp)
    obtain ⟨ns, hns, hlen, hidx⟩ := ih (fun plr hp => h plr (by simp [hp]))
    refine ⟨n :: ns, ?_, by simp [hlen], ?_⟩
    · unfold format_plr
      rw [hn, hns]
    · intro i hi hj
      cases i with
      | zero => simpa using hn
      | succ m =>
        exact hidx m (Nat.succ_lt_succ_iff.mp hi) (Nat.succ_lt_succ_iff.mp hj)

theorem format_plr_ok_elim (cfg : Config) (params : Parameter) (language : String)
    (plrs : List PlrRecord) (nodes : List Node)
    (h : format_plr cfg params language plrs = .ok nodes) :
    nodes.length = plrs.length
    ∧ ∀ i (hi : i < plrs.length) (hj : i < nodes.length),
        format_plr_single cfg params language (plrs.get ⟨i, hi⟩)
          = .ok (nodes.get ⟨i, hj⟩) := by
  induction plrs generalizing nodes with
  | nil =>
    unfold format_plr at h
    simp only [Except.ok.injEq] at h
    subst h
    exact ⟨rfl, fun i hi => absurd hi (by simp)⟩
  | cons a as ih =>
    unfold format_plr at h
    cases ha : format_plr_single cfg params language a with
    | error e => rw [ha] at h; exact absurd h (by simp)
    | ok n =>
      rw [ha] at h
      cases has : format_plr cfg params language as with
      | error e => rw [has] at h; exact absurd h (by simp)
      | ok ns =>
        rw [has] at h
        simp only [Except.ok.injEq] at h
        subst h
        obtain ⟨hlen, hidx⟩ := ih ns has
        refine ⟨by simp [hlen], ?_⟩
        intro i hi hj
        cases i with
        | zero => simpa using ha
        | succ m =>
          exact hidx m (Nat.succ_lt_succ_iff.mp hi) (Nat.succ_lt_succ_iff.mp hj)

/-! ## C1: the legal-basis validation -/

/-- **C1 counterexample**: with geometry inclusion on, a first restriction
carrying an unclassifiable geometry and a second restriction with an empty
document list, the flavour is not `reduced` and a document sequence is
empty, yet `format_plr` fails with the geometry error, not with the
missing-legal-basis error: the claimed "if and only if" does not hold as
stated. -/
theorem format_plr_missing_legal_basis_counterexample :
    (paramsFullGeom.flavour != "reduced") = true
    ∧ plrEmptyDocs.documents = some []
    ∧ format_plr cfg₀ paramsFullGeom "de" [plrBadGeom, plrEmptyDocs]
        = .error (.unknownGeometryType "Weird") :=
  ⟨rfl, rfl, rfl⟩

/-- **C1 (amended)**: provided geometry formatting raises no error
(geometry inclusion is off or every restriction's geometry tags are
classifiable), `format_plr` fails with the missing-legal-basis error if
and only if the flavour is not `reduced` and some restriction's document
sequence is present and empty — the failure aborts the whole render, no
partial list is returned; and with flavour `reduced` the call succeeds
with one node per restriction, the nodes of restrictions with an empty
document list omitting the `LegalProvisions` key. -/
theorem format_plr_missing_legal_basis (cfg : Config) (params : Parameter) (language : String)
    (plrs : List PlrRecord)
    (hgeo : ∀ plr ∈ plrs, plr_geoms_classifiable cfg params plr = true) :
    ((format_plr cfg params language plrs = .error .missingLegalBasis)
      ↔ (params.flavour ≠ "reduced" ∧ ∃ plr ∈ plrs, plr.documents = some []))
    ∧ (params.flavour = "reduced" →
        ∃ nodes, format_plr cfg params language plrs = .ok nodes
          ∧ nodes.length = plrs.length
          ∧ ∀ i (hi : i < plrs.length) (hj : i < nodes.length),
              (plrs.get ⟨i, hi⟩).documents = some [] →
              hasKey (nodes.get ⟨i, hj⟩) "LegalProvisions" = false) := by
  constructor
  · rw [format_plr_mlb_iff cfg params language plrs hgeo]
    constructor
    · rintro ⟨plr, hp, hcond⟩
      rw [Bool.and_eq_true] at hcond
      exact ⟨bne_iff_ne.mp hcond.1, plr, hp, (isEmptyListOpt_iff _).mp hcond.2⟩
    · rintro ⟨hf, plr, hp, hdocs⟩
      refine ⟨plr, hp, ?_⟩
      rw [Bool.and_eq_true]
      exact ⟨bne_iff_ne.mpr hf, (isEmptyListOpt_iff _).mpr hdocs⟩
  · intro hred
    have hall : ∀ plr ∈ plrs, ∃ n, format_plr_single cfg params language plr = .ok n := by
      intro plr hp
      apply format_plr_single_ok cfg params language plr _ (hgeo plr hp)
      rw [hred]
      simp
    obtain ⟨nodes, hns, hlen, hidx⟩ := format_plr_ok_of_all cfg params language plrs hall
    refine ⟨nodes, hns, hlen, ?_⟩
    intro i hi hj hdocs
    have hkeys := format_plr_single_keys cfg params language _ _ (hidx i hi hj)
    rw [hkeys.2.2, hdocs]
    rfl

/-- **C1 witness**: with flavour `full` and a single restriction whose
document list is empty, `format_plr` fails with the missing-legal-basis
error. -/
theorem format_plr_missing_legal_basis_witness :
    plr_geoms_classifiable cfg₀ paramsFull plrEmptyDocs = true
    ∧ format_plr cfg₀ paramsFull "de" [plrEmptyDocs] = .error .missingLegalBasis := by
  refine ⟨by decide, ?_⟩
  exact (format_plr_missing_legal_basis cfg₀ paramsFull "de" [plrEmptyDocs]
    (by decide)).1.mpr ⟨by decide, plrEmptyDocs, by simp, rfl⟩

/-! ## C6: Symbol versus SymbolRef -/

/-- **C6**: in every restriction node produced by `format_plr`, `Symbol`
is present exactly when image mode is on, and `SymbolRef` is present
exactly when image mode is off and the restriction carries a (truthy)
type code — so at most one of the two keys is ever present, and with
image mode off and no type code neither is. -/
theorem format_plr_symbol_exclusive (cfg : Config) (params : Parameter) (language : String)
    (plrs : List PlrRecord) (nodes : List Node)
    (h : format_plr cfg params language plrs = .ok nodes) :
    nodes.length = plrs.length
    ∧ ∀ i (hi : i < plrs.length) (hj : i < nodes.length),
        hasKey (nodes.get ⟨i, hj⟩) "Symbol" = params.images
        ∧ hasKey (nodes.get ⟨i, hj⟩) "SymbolRef"
            = (!params.images && truthyStr (plrs.get ⟨i, hi⟩).type_code) := by
  obtain ⟨hlen, hidx⟩ := format_plr_ok_elim cfg params language plrs nodes h
  refine ⟨hlen, fun i hi hj => ?_⟩
  have hkeys := format_plr_single_keys cfg params language _ _ (hidx i hi hj)
  exact ⟨hkeys.1, hkeys.2.1⟩

/-- **C6 witness**: the restriction node of `plrBase` rendered in image
mode carries `Symbol` and no `SymbolRef`. -/
theorem format_plr_symbol_exclusive_witness :
    hasKey plrImgNode0 "Symbol" = true ∧ hasKey plrImgNode0 "SymbolRef" = false := by
  have h := (format_plr_symbol_exclusive cfg₀ paramsFullImg "de" [plrBase] [plrImgNode0]
    rfl).2 0 (by decide) (by decide)
  exact ⟨h.1, h.2⟩

/-! ## C3: no flavour validation -/

theorem format_plr_single_flavour_full (cfg : Config) (params : Parameter) (language : String)
    (plr : PlrRecord) (h : params.flavour ≠ "reduced") :
    format_plr_single cfg { params with flavour := "full" } language plr
      = format_plr_single cfg params language plr := by
  have hf : (params.flavour != "reduced") = true := bne_iff_ne.mpr h
  unfold format_plr_single
  rw [hf]
  rfl

theorem format_plr_flavour_full (cfg : Config) (params : Parameter) (language : String)
    (plrs : List PlrRecord) (h : params.flavour ≠ "reduced") :
    format_plr cfg { params with flavour := "full" } language plrs
      = format_plr cfg params language plrs := by
  induction plrs with
  | nil => rfl
  | cons a as ih =>
    unfold format_plr
    rw [format_plr_single_flavour_full cfg params language a h, ih]

theorem format_real_estate_flavour_full (cfg : Config) (params : Parameter) (language : String)
    (re : RealEstateRecord) (h : params.flavour ≠ "reduced") :
    format_real_estate cfg { params with flavour := "full" } language re
      = format_real_estate cfg params language re := by
  have hplr : format_real_estate_plr_part cfg { params with flavour := "full" } language re
      = format_real_estate_plr_part cfg params language re := by
    unfold format_real_estate_plr_part
    cases re.public_law_restrictions with
    | none => rfl
    | some l => simp only [format_plr_flavour_full cfg params language l h]
  unfold format_real_estate
  rw [hplr]
  rfl

/-- **C3 counterexample**: a mode descriptor with the unrecognized flavour
`banana` does not make rendering fail — `_render` succeeds (there is no
invalid-mode failure anywhere in the renderer) and simply treats the
flavour as non-reduced, here yielding `isReduced = false`. -/
theorem render_unrecognized_flavour_counterexample :
    _render cfg₀ paramsBanana ext₀ = .ok renderBananaNode
    ∧ getKey renderBananaNode "isReduced" = some (Val.bool false) :=
  ⟨rfl, rfl⟩

/-- **C3 (amended)**: the renderer performs no flavour validation and has
no invalid-mode failure: a render-mode descriptor whose flavour is not
`reduced` and not `embeddable` (in particular any unrecognized flavour) is
processed exactly like the flavour `full` — same output, same errors. -/
theorem render_unrecognized_flavour (cfg : Config) (params : Parameter)
    (extract : ExtractRecord)
    (h1 : params.flavour ≠ "reduced") (h2 : params.flavour ≠ "embeddable") :
    _render cfg params extract = _render cfg { params with flavour := "full" } extract := by
  have hbody : ∀ language, render_body cfg { params with flavour := "full" } language extract
      = render_body cfg params language extract := by
    intro language
    unfold render_body
    rw [format_real_estate_flavour_full cfg params language extract.real_estate h1,
        beq_eq_false_iff_ne.mpr h1, beq_eq_false_iff_ne.mpr h2]
    rfl
  unfold _render
  rw [hbody]

/-- **C3 witness**: the amended claim instantiated at the flavour
`banana`. -/
theorem render_unrecognized_flavour_witness :
    (paramsBanana.flavour != "reduced") = true
    ∧ (paramsBanana.flavour != "embeddable") = true
    ∧ _render cfg₀ paramsBanana ext₀ = _render cfg₀ { paramsBanana with flavour := "full" } ext₀ :=
  ⟨rfl, rfl, render_unrecognized_flavour cfg₀ paramsBanana ext₀ (by decide) (by decide)⟩

/-! ## C7: isReduced and the logo representation -/

theorem hasKey_ite (b : Bool) (n1 n2 : Node) (k : String) :
    hasKey (if b then n1 else n2) k = (if b then hasKey n1 k else hasKey n2 k) := by
  cases b <;> simp

/-- **C7**: in every successfully rendered extract, `isReduced` holds
exactly when the flavour is `reduced` or `embeddable`; and exactly one
logo representation is used: with image mode on, the four inline logo keys
are present and none of the four `...Ref` keys is, and with image mode off
the four `...Ref` keys are present and none of the inline keys is. -/
theorem render_isReduced_logos (cfg : Config) (params : Parameter) (extract : ExtractRecord)
    (node : Node) (h : _render cfg params extract = .ok node) :
    getKey node "isReduced"
      = some (Val.bool (params.flavour == "reduced" || params.flavour == "embeddable"))
    ∧ hasKey node "LogoPLRCadastre" = params.images
    ∧ hasKey node "FederalLogo" = params.images
    ∧ hasKey node "CantonalLogo" = params.images
    ∧ hasKey node "MunicipalityLogo" = params.images
    ∧ hasKey node "LogoPLRCadastreRef" = !params.images
    ∧ hasKey node "FederalLogoRef" = !params.images
    ∧ hasKey node "CantonalLogoRef" = !params.images
    ∧ hasKey node "MunicipalityLogoRef" = !params.images := by
  unfold _render render_body at h
  cases hre : format_real_estate cfg params
      (renderer_language cfg.default_language params.language) extract.real_estate with
  | error e => rw [hre] at h; exact absurd h (by simp)
  | ok re_node =>
    rw [hre] at h
    simp only [Except.ok.injEq] at h
    subst h
    cases hpi : params.images <;>
      refine ⟨?_, ?_, ?_, ?_, ?_, ?_, ?_, ?_, ?_⟩ <;>
        simp +decide [hpi, getKey_cons, hasKey_cons, hasKey_append, hasKey_condSingle,
          hasKey_single, hasKey_nil]

/-- **C7 witness**: the extract `ext₀` rendered with flavour `embeddable`
and image mode off has `isReduced = true`, the four `...Ref` logo keys and
no inline logo key. -/
theorem render_isReduced_logos_witness :
    getKey renderEmbNode "isReduced" = some (Val.bool true)
    ∧ hasKey renderEmbNode "LogoPLRCadastre" = false
    ∧ hasKey renderEmbNode "FederalLogo" = false
    ∧ hasKey renderEmbNode "CantonalLogo" = false
    ∧ hasKey renderEmbNode "MunicipalityLogo" = false
    ∧ hasKey renderEmbNode "LogoPLRCadastreRef" = true
    ∧ hasKey renderEmbNode "FederalLogoRef" = true
    ∧ hasKey renderEmbNode "CantonalLogoRef" = true
    ∧ hasKey renderEmbNode "MunicipalityLogoRef" = true :=
  render_isReduced_logos cfg₀ paramsEmb ext₀ renderEmbNode rfl

end PyramidOereb
